import Mathlib

/-!
Verification development for the sbom-harbor SBOM enrichment pipeline.

Shallow embedding of `src/cyclonedx/clients/dependency_track/dependency_track.py`
and the handlers of `src/cyclonedx/api.py`.  External collaborators are modelled
explicitly: the SSM parameter store and the S3 object store live in an explicit
state record, every outward-visible action (HTTP call, store read/write, sleep,
log warning) is appended to an event trace, and the Analyzer (Dependency Track)
is an oracle record `DT` describing how the external service answers each kind
of request.  Randomness (`uuid4()`) is a stream `rng` carried in the state.
Python exceptions become `Except Err`; the recursive functions and the polling
loop take a fuel argument, and exhausting the fuel (`Err.outOfFuel`) represents
a computation that is still running after `fuel` iterations.  Functions whose
Python body ends without a `return` statement return `Option` values, with
`none` standing for the implicit Python `None`.  Info-level log lines are not
modelled; warning-level logging is (the `Event.logWarn` constructor), because
one claim is about warnings.
-/

namespace SbomHarbor

/-- Constant from `src/cyclonedx/constants.py`: the well-known default admin password. -/
def DT_DEFAULT_ADMIN_PWD : String := "admin"

/-- Constant from `src/cyclonedx/constants.py`: the sentinel for a provisioned but unpopulated secret. -/
def EMPTY_VALUE : String := "EMPTY"

/-- Name of the automation API key parameter in the secret store (`deploy.constants.DT_API_KEY`). -/
def DT_API_KEY : String := "DT_API_KEY"

/-- Name of the root password parameter in the secret store (`deploy.constants.DT_ROOT_PWD`). -/
def DT_ROOT_PWD : String := "DT_ROOT_PWD"

/-- Team record as returned by the Dependency Track teams endpoint: the fields
the source reads are `name`, `uuid` and the list of API key strings
(`team["apiKeys"][i]["key"]`). -/
structure Team where
  name : String
  uuid : String
  apiKeys : List String
  deriving Repr, DecidableEq

/-- Oracle describing how the external Analyzer (Dependency Track) answers each
request the client can make.  It models the remote service, not code of the
repository. -/
structure DT where
  /-- Response of the list-teams endpoint. -/
  teams : List Team
  /-- Login endpoint: maps the submitted password to the returned JWT text. -/
  loginJwt : String → String
  /-- Key-rotation endpoint: maps the old key to the fresh key in the response. -/
  rotateKey : String → String
  /-- HTTP status code of the create-project response, as a function of the API key used. -/
  createStatus : String → Nat
  /-- Project uuid in a successful create-project response. -/
  createUuid : String
  /-- Token in the upload-bom response. -/
  uploadToken : String
  /-- Processing flag of the nth status poll (counted across the whole run). -/
  processing : Nat → Bool
  /-- Findings JSON text for a project uuid. -/
  findingsJson : String → String
  /-- HTTP status code of the delete-project response. -/
  deleteStatus : Nat

/-- Outward-visible actions of the embedded code, newest first in the trace. -/
inductive Event where
  | ssmGet (name : String)
  | ssmPut (name value : String)
  | forceChangePwd (username oldPwd newPwd : String)
  | loginCall (password : String)
  | getTeamsCall
  | grantPermission (perm teamUuid : String)
  | rotateCall (oldKey : String)
  | createProjectCall (apiKey : String)
  | uploadCall (apiKey projectUuid : String)
  | statusPollCall (apiKey token : String)
  | findingsCall (apiKey projectUuid : String)
  | deleteProjectCall (apiKey projectUuid : String)
  | sleepMs (ms : Nat)
  | logWarn (msg : String)
  | s3GetObj (bucket key : String)
  | s3PutObj (bucket key body : String)
  deriving Repr, DecidableEq

/-- Python exceptions that the embedded code can raise.  `outOfFuel` is the
fuel-exhaustion marker standing for a computation that has not finished after
the given number of iterations. -/
inductive Err where
  | outOfFuel
  | automationTeamMissing
  | indexError
  | keyError (name : String)
  deriving Repr, DecidableEq

/-- State threaded through the embedded code: the SSM parameter store, the S3
object store keyed by (bucket, key), the event trace (newest first), the
status-poll counter feeding the `DT.processing` oracle, and the `uuid4()`
stream. -/
structure St where
  ssm : List (String × String)
  s3 : List ((String × String) × String)
  events : List Event
  pollCount : Nat
  rng : Nat → String
  rngUsed : Nat

/-- Append an event to the trace. -/
def addEvent (e : Event) (s : St) : St :=
  { s with events := e :: s.events }

/-- Read a parameter from the SSM store (first binding wins, matching overwrite-by-shadowing). -/
def ssmLookup (ssm : List (String × String)) (n : String) : Option String :=
  (ssm.find? (fun p => p.1 == n)).map (fun p => p.2)

/-- Model of `ssm.put_parameter(Name=n, Value=v, Overwrite=True)`: shadow the
old binding and record the write. -/
def ssmPutParam (n v : String) (s : St) : St :=
  { s with ssm := (n, v) :: s.ssm, events := Event.ssmPut n v :: s.events }

/-- Read an object from the S3 store. -/
def s3Lookup (s3 : List ((String × String) × String)) (bucket key : String) : Option String :=
  (s3.find? (fun p => p.1.1 == bucket && p.1.2 == key)).map (fun p => p.2)

/-- Model of `s3.Object(bucket, key).put(Body=body)`. -/
def s3Put (bucket key body : String) (s : St) : St :=
  { s with s3 := ((bucket, key), body) :: s.s3,
           events := Event.s3PutObj bucket key body :: s.events }

/-- Draw the next value of the `uuid4()` stream. -/
def freshUuid (s : St) : String × St :=
  (s.rng s.rngUsed, { s with rngUsed := s.rngUsed + 1 })

/-- Embeds `__change_dt_root_pwd`: post the force-change-password form (username
and current password are both the well-known default), persist the freshly
generated password in SSM with overwrite, and return it. -/
def change_dt_root_pwd (s : St) : String × St :=
  let pwd := DT_DEFAULT_ADMIN_PWD
  let (new_pwd, s) := freshUuid s
  let s := addEvent (Event.forceChangePwd pwd pwd new_pwd) s
  let s := ssmPutParam DT_ROOT_PWD new_pwd s
  (new_pwd, s)

/-- Embeds `__get_root_password`: read the root password parameter; when it is
absent (ParameterNotFound) or holds the `EMPTY` sentinel, change the root
password and recurse.  The Python self-recursion is given fuel. -/
def get_root_password : Nat → St → Except Err String × St
  | 0, s => (Except.error Err.outOfFuel, s)
  | fuel + 1, s =>
    let s := addEvent (Event.ssmGet DT_ROOT_PWD) s
    match ssmLookup s.ssm DT_ROOT_PWD with
    | some value =>
      if EMPTY_VALUE == value then
        let (_, s) := change_dt_root_pwd s
        get_root_password fuel s
      else
        (Except.ok value, s)
    | none =>
      let (_, s) := change_dt_root_pwd s
      get_root_password fuel s

/-- Embeds `__get_jwt`: resolve the root password when none is supplied (every
caller in the source passes nothing), then exchange it for a session token at
the login endpoint. -/
def get_jwt (dt : DT) (fuel : Nat) (root_pwd : Option String) (s : St) :
    Except Err String × St :=
  match root_pwd with
  | some pwd =>
    let s := addEvent (Event.loginCall pwd) s
    (Except.ok (dt.loginJwt pwd), s)
  | none =>
    match get_root_password fuel s with
    | (Except.error e, s) => (Except.error e, s)
    | (Except.ok pwd, s) =>
      let s := addEvent (Event.loginCall pwd) s
      (Except.ok (dt.loginJwt pwd), s)

/-- Embeds `__get_teams`: authenticate, then fetch the team list. -/
def get_teams (dt : DT) (fuel : Nat) (s : St) : Except Err (List Team) × St :=
  match get_jwt dt fuel none s with
  | (Except.error e, s) => (Except.error e, s)
  | (Except.ok _jwt, s) =>
    let s := addEvent Event.getTeamsCall s
    (Except.ok dt.teams, s)

/-- Embeds `__get_automation_team_data_from_dt`: return the uuid and first API
key of the first team named "Automation", raising when no such team exists
(`automationTeamMissing`) or its key list is empty (IndexError). -/
def get_automation_team_data_from_dt (dt : DT) (fuel : Nat) (s : St) :
    Except Err (String × String) × St :=
  match get_teams dt fuel s with
  | (Except.error e, s) => (Except.error e, s)
  | (Except.ok teams, s) =>
    match teams.find? (fun t => t.name == "Automation") with
    | some t =>
      match t.apiKeys with
      | [] => (Except.error Err.indexError, s)
      | k :: _ => (Except.ok (t.uuid, k), s)
    | none => (Except.error Err.automationTeamMissing, s)

/-- Permission list of `__set_team_permissions`, in source order. -/
def dtPermissions : List String :=
  ["ACCESS_MANAGEMENT",
   "POLICY_MANAGEMENT",
   "POLICY_VIOLATION_ANALYSIS",
   "PORTFOLIO_MANAGEMENT",
   "PROJECT_CREATION_UPLOAD",
   "SYSTEM_CONFIGURATION",
   "VIEW_PORTFOLIO",
   "VIEW_VULNERABILITY",
   "VULNERABILITY_ANALYSIS"]

/-- Embeds `__set_team_permissions`: authenticate, then post one
permission-grant per entry of the fixed permission list. -/
def set_team_permissions (dt : DT) (fuel : Nat) (team_uuid : String) (s : St) :
    Except Err Unit × St :=
  match get_jwt dt fuel none s with
  | (Except.error e, s) => (Except.error e, s)
  | (Except.ok _jwt, s) =>
    let s := dtPermissions.foldl
      (fun s perm => addEvent (Event.grantPermission perm team_uuid) s) s
    (Except.ok (), s)

/-- Embeds `__set_initial_api_key_in_ssm`: discover the Automation team and its
first API key, grant the fixed permission set, persist and return the key. -/
def set_initial_api_key_in_ssm (dt : DT) (fuel : Nat) (s : St) :
    Except Err String × St :=
  match get_automation_team_data_from_dt dt fuel s with
  | (Except.error e, s) => (Except.error e, s)
  | (Except.ok (automation_team_uuid, api_key), s) =>
    match set_team_permissions dt fuel automation_team_uuid s with
    | (Except.error e, s) => (Except.error e, s)
    | (Except.ok _, s) =>
      let s := ssmPutParam DT_API_KEY api_key s
      (Except.ok api_key, s)

/-- Embeds `__get_api_key`: read the key parameter; bootstrap via
`set_initial_api_key_in_ssm` when the parameter is absent or `EMPTY`, otherwise
return the stored value directly. -/
def get_api_key (dt : DT) (fuel : Nat) (s : St) : Except Err String × St :=
  let s := addEvent (Event.ssmGet DT_API_KEY) s
  match ssmLookup s.ssm DT_API_KEY with
  | some value =>
    if EMPTY_VALUE == value then set_initial_api_key_in_ssm dt fuel s
    else (Except.ok value, s)
  | none => set_initial_api_key_in_ssm dt fuel s

/-- Embeds `__rotate_api_key`: read the current key, authenticate as admin,
post the rotate request with the old key, persist the new key with overwrite.
The Python function body has no `return` statement, so the value delivered to
the caller is the implicit `None`, embedded as `Option.none`. -/
def rotate_api_key (dt : DT) (fuel : Nat) (s : St) :
    Except Err (Option String) × St :=
  match get_api_key dt fuel s with
  | (Except.error e, s) => (Except.error e, s)
  | (Except.ok old_key, s) =>
    match get_jwt dt fuel none s with
    | (Except.error e, s) => (Except.error e, s)
    | (Except.ok _jwt, s) =>
      let s := addEvent (Event.rotateCall old_key) s
      let new_api_key := dt.rotateKey old_key
      let s := ssmPutParam DT_API_KEY new_api_key s
      (Except.ok none, s)

/-- Embeds `__findings_ready`: one status poll; the answer is the negation of
the `processing` flag, here drawn from the oracle at the current poll index. -/
def findings_ready (dt : DT) (key sbom_token : String) (s : St) : Bool × St :=
  let s := addEvent (Event.statusPollCall key sbom_token) s
  let processing := dt.processing s.pollCount
  let s := { s with pollCount := s.pollCount + 1 }
  (!processing, s)

/-- Embeds the `while not __findings_ready(...): sleep(0.5)` loop of
`__get_findings`, with fuel; the Python loop has no iteration bound. -/
def findingsPollLoop (dt : DT) (key sbom_token : String) :
    Nat → St → Except Err Unit × St
  | 0, s => (Except.error Err.outOfFuel, s)
  | fuel + 1, s =>
    let (ready, s) := findings_ready dt key sbom_token s
    if ready then (Except.ok (), s)
    else findingsPollLoop dt key sbom_token fuel (addEvent (Event.sleepMs 500) s)

/-- Embeds `__get_findings`: fetch the API key, busy-wait on the status
endpoint, then fetch the findings JSON for the project. -/
def get_findings (dt : DT) (fuel : Nat) (project_uuid sbom_token : String) (s : St) :
    Except Err String × St :=
  match get_api_key dt fuel s with
  | (Except.error e, s) => (Except.error e, s)
  | (Except.ok key, s) =>
    match findingsPollLoop dt key sbom_token fuel s with
    | (Except.error e, s) => (Except.error e, s)
    | (Except.ok _, s) =>
      let s := addEvent (Event.findingsCall key project_uuid) s
      (Except.ok (dt.findingsJson project_uuid), s)

/-- Embeds `__create_project`: fetch the API key, send the create-project
request (whose generated name consumes one `uuid4()`), and on a 401 response
rotate the API key and recurse; any other status yields the project uuid.  The
Python self-recursion has no depth bound, so it is given fuel. -/
def create_project (dt : DT) : Nat → St → Except Err String × St
  | 0, s => (Except.error Err.outOfFuel, s)
  | fuel + 1, s =>
    match get_api_key dt fuel s with
    | (Except.error e, s) => (Except.error e, s)
    | (Except.ok key, s) =>
      let (_proj_name, s) := freshUuid s
      let s := addEvent (Event.createProjectCall key) s
      if dt.createStatus key == 401 then
        match rotate_api_key dt fuel s with
        | (Except.error e, s) => (Except.error e, s)
        | (Except.ok _, s) => create_project dt fuel s
      else
        (Except.ok dt.createUuid, s)

/-- Embeds `__delete_project`: fetch the API key and send the delete request;
the response (`dt.deleteStatus`) is discarded without inspection. -/
def delete_project (dt : DT) (fuel : Nat) (project_uuid : String) (s : St) :
    Except Err Unit × St :=
  match get_api_key dt fuel s with
  | (Except.error e, s) => (Except.error e, s)
  | (Except.ok api_key, s) =>
    let s := addEvent (Event.deleteProjectCall api_key project_uuid) s
    let _rsp := dt.deleteStatus
    (Except.ok (), s)

/-- Embeds `__upload_sbom`: fetch the API key, post the multipart body, return
the token of the response. -/
def upload_sbom (dt : DT) (fuel : Nat) (project_uuid _bom_str_file : String) (s : St) :
    Except Err String × St :=
  match get_api_key dt fuel s with
  | (Except.error e, s) => (Except.error e, s)
  | (Except.ok api_key, s) =>
    let s := addEvent (Event.uploadCall api_key project_uuid) s
    (Except.ok dt.uploadToken, s)

/-- Embeds `dt_interface_handler` of `src/cyclonedx/api.py`: read the SBOM at
(bucket, key) from S3, create a disposable project, upload, poll and fetch the
findings, delete the project, then write the findings to the same bucket under
the key `"findings-" ++ key` and return success.  The (bucket, key) pair is the
content of the first record of the triggering message. -/
def dt_interface_handler (dt : DT) (fuel : Nat) (bucket_name key : String) (s : St) :
    Except Err Bool × St :=
  let s := addEvent (Event.s3GetObj bucket_name key) s
  match s3Lookup s.s3 bucket_name key with
  | none => (Except.error (Err.keyError key), s)
  | some sbom =>
    match create_project dt fuel s with
    | (Except.error e, s) => (Except.error e, s)
    | (Except.ok project_uuid, s) =>
      match upload_sbom dt fuel project_uuid sbom s with
      | (Except.error e, s) => (Except.error e, s)
      | (Except.ok sbom_token, s) =>
        match get_findings dt fuel project_uuid sbom_token s with
        | (Except.error e, s) => (Except.error e, s)
        | (Except.ok findings, s) =>
          match delete_project dt fuel project_uuid s with
          | (Except.error e, s) => (Except.error e, s)
          | (Except.ok _, s) =>
            let findings_key := "findings-" ++ key
            let s := s3Put bucket_name findings_key findings s
            (Except.ok true, s)

/-- Body payload of a Lambda response of the ingress handler: either the
pristine info object built by `__create_pristine_response_obj` or plain text
(the stringified validation error). -/
inductive RespBody where
  | pristineInfo (valid : Bool) (bucketName objKey : String)
  | text (msg : String)
  deriving Repr, DecidableEq

/-- Lambda response record (statusCode plus body). -/
structure LambdaResponse where
  statusCode : Nat
  body : RespBody
  deriving Repr, DecidableEq

/-- Embeds `__create_pristine_response_obj`: a 200 response carrying the
bucket name and generated object key. -/
def create_pristine_response_obj (bucket_name key : String) : LambdaResponse :=
  { statusCode := 200, body := RespBody.pristineInfo true bucket_name key }

/-- Embeds `pristine_sbom_ingress_handler` of `src/cyclonedx/api.py`: generate
a fresh `"sbom-"` object key, build the 200 response, then validate the SBOM
body; on success generate the enrichment token (one more `uuid4()`, via
`__generate_sbom_api_token`, absent from the sources and abstracted here) and
put the SBOM into S3 under the generated key; on a validation error skip the
put and return the response with statusCode 400 and the error text as body.
The validator (`CycloneDxCore.validate`, absent from the sources) is a
black-box parameter returning the error text on failure, per the spec. -/
def pristine_sbom_ingress_handler (validateBom : String → Option String)
    (bucket_name bom_obj : String) (s : St) : LambdaResponse × St :=
  let (u, s) := freshUuid s
  let key := "sbom-" ++ u
  let response_obj := create_pristine_response_obj bucket_name key
  match validateBom bom_obj with
  | none =>
    let (_token, s) := freshUuid s
    let s := s3Put bucket_name key bom_obj s
    (response_obj, s)
  | some validation_error =>
    ({ response_obj with statusCode := 400, body := RespBody.text validation_error }, s)

/-- Modelled from the spec: `__get_token_index` is imported from
`cyclonedx.util` but absent from the sources; per the spec it is the
token-index lookup for deleting an automation token on a team, returning the
position at which the token appears in the stored token list, and nothing when
it does not appear. -/
def get_token_index (tokens : List String) (token : String) : Option Nat :=
  tokens.findIdx? (fun t => t == token)

/-- Python truthiness of the looked-up index, as tested by `if index:` in
`delete_token_handler`: `None` and `0` are falsy, positive integers truthy. -/
def pyTruthyIdx : Option Nat → Bool
  | none => false
  | some 0 => false
  | some (_ + 1) => true

/-- Token-endpoint response record built by `__token_response_obj`. -/
structure TokenResponse where
  statusCode : Nat
  token : String
  errorMsg : Option String
  deriving Repr, DecidableEq

/-- Embeds `__token_response_obj`: the error field is attached only when the
message is truthy (a non-empty string). -/
def token_response_obj (status_code : Nat) (token : String) (msg : Option String) :
    TokenResponse :=
  { statusCode := status_code,
    token := token,
    errorMsg := match msg with
      | some m => if m == "" then none else some m
      | none => none }

/-- Embeds `delete_token_handler` of `src/cyclonedx/api.py`: look the team up
in the team table, find the index of the requested token, and only when the
index is truthy issue the `REMOVE #t[index]` update (the second component of
the result records the index of the issued remove-update, `none` when no
update is issued) and answer 200; otherwise answer 401 with a no-such-token
message.  A missing team is the KeyError of `get_item_rsp["Item"]`. -/
def delete_token_handler (table : List (String × List String))
    (team_name token : String) : Except Err (TokenResponse × Option Nat) :=
  match (table.find? (fun p => p.1 == team_name)).map (fun p => p.2) with
  | none => Except.error (Err.keyError "Item")
  | some tokens =>
    let index := get_token_index tokens token
    if pyTruthyIdx index then
      Except.ok (token_response_obj 200 token none, index)
    else
      Except.ok (token_response_obj 401 token
        (some ("No such token(" ++ token ++ ") belongs to team(" ++ team_name ++ ") ")), none)

/-- Number of key-rotation requests in a trace. -/
def rotCount (l : List Event) : Nat :=
  l.countP (fun e => match e with | Event.rotateCall _ => true | _ => false)

/-- Number of sleep intervals in a trace. -/
def sleepCount (l : List Event) : Nat :=
  l.countP (fun e => match e with | Event.sleepMs _ => true | _ => false)

/-- Number of warning-level log lines in a trace. -/
def warnCount (l : List Event) : Nat :=
  l.countP (fun e => match e with | Event.logWarn _ => true | _ => false)

/-- Project uuids passed to delete-project requests, in trace order. -/
def deletedProjects (l : List Event) : List String :=
  l.filterMap (fun e => match e with | Event.deleteProjectCall _ u => some u | _ => none)

/-- Permission-grant calls (permission, team uuid) in a trace, in trace order. -/
def grantsOf (l : List Event) : List (String × String) :=
  l.filterMap (fun e => match e with | Event.grantPermission p u => some (p, u) | _ => none)

/-- Events that are neither a delete-project call, nor a warning log line, nor
a blob-store write; used to state frame lemmas for the credential-layer calls. -/
def benignEvent : Event → Bool
  | Event.deleteProjectCall _ _ => false
  | Event.logWarn _ => false
  | Event.s3PutObj _ _ _ => false
  | _ => true

/-- A trace fragment made only of benign events. -/
def Benign (l : List Event) : Prop := ∀ e ∈ l, benignEvent e = true

/-- State s2 extends state s by benign events only, leaving the blob store
untouched. -/
def ExtBenign (s s2 : St) : Prop :=
  s2.s3 = s.s3 ∧ ∃ l, Benign l ∧ s2.events = l ++ s.events

/-- Well-provisioned secret store: the automation API key and the root password
are both present and not the `EMPTY` sentinel. -/
def GoodSt (s : St) : Prop :=
  (∃ v, ssmLookup s.ssm DT_API_KEY = some v ∧ v ≠ EMPTY_VALUE) ∧
  (∃ p, ssmLookup s.ssm DT_ROOT_PWD = some p ∧ p ≠ EMPTY_VALUE)

/-- Replace only the delete-project response status of an Analyzer oracle. -/
def setDeleteStatus (dt : DT) (n : Nat) : DT := { dt with deleteStatus := n }

/-- Stub Analyzer that answers 401 to every create-project request. -/
def dt401 : DT :=
  { teams := [],
    loginJwt := fun _ => "jwt",
    rotateKey := fun _ => "k1",
    createStatus := fun _ => 401,
    createUuid := "proj-1",
    uploadToken := "tok-1",
    processing := fun _ => true,
    findingsJson := fun _ => "FINDINGS",
    deleteStatus := 200 }

/-- Stub Analyzer for the happy path: one Automation team, create succeeds,
the first two status polls report processing, the third does not. -/
def dtGood : DT :=
  { teams := [{ name := "Automation", uuid := "team-uuid", apiKeys := ["k0"] }],
    loginJwt := fun _ => "jwt",
    rotateKey := fun _ => "k1",
    createStatus := fun _ => 201,
    createUuid := "proj-1",
    uploadToken := "tok-1",
    processing := fun n => decide (n < 2),
    findingsJson := fun _ => "FINDINGS",
    deleteStatus := 200 }

/-- Initial state with both secrets provisioned and no stored objects. -/
def st0 : St :=
  { ssm := [(DT_API_KEY, "k0"), (DT_ROOT_PWD, "pw")],
    s3 := [],
    events := [],
    pollCount := 0,
    rng := fun _ => "uuid",
    rngUsed := 0 }

/-- Initial state with both secrets provisioned and one stored SBOM. -/
def stGood : St :=
  { ssm := [(DT_API_KEY, "k0"), (DT_ROOT_PWD, "pw")],
    s3 := [(("sboms", "sbom-abc"), "BOMDOC")],
    events := [],
    pollCount := 0,
    rng := fun _ => "uuid",
    rngUsed := 0 }

/-- Initial state with the root password provisioned but no automation API key. -/
def stBoot : St :=
  { ssm := [(DT_ROOT_PWD, "pw")],
    s3 := [],
    events := [],
    pollCount := 0,
    rng := fun _ => "uuid",
    rngUsed := 0 }

/-- Initial state with the automation API key provisioned but no root password. -/
def stNoRoot : St :=
  { ssm := [(DT_API_KEY, "k0")],
    s3 := [],
    events := [],
    pollCount := 0,
    rng := fun _ => "uuid",
    rngUsed := 0 }

/-- Toy black-box validator for witness runs: rejects exactly the body "BAD". -/
def toyValidate : String → Option String :=
  fun b => if b == "BAD" then some "invalid sbom" else none

/-- Trace fragment made only of status polls and 500 ms sleeps. -/
def pollDeltaOnly (l : List Event) : Prop :=
  ∀ e ∈ l, (∃ k t, e = Event.statusPollCall k t) ∨ e = Event.sleepMs 500

@[simp] theorem addEvent_ssm (e : Event) (s : St) : (addEvent e s).ssm = s.ssm := rfl

@[simp] theorem addEvent_s3 (e : Event) (s : St) : (addEvent e s).s3 = s.s3 := rfl

@[simp] theorem addEvent_events (e : Event) (s : St) : (addEvent e s).events = e :: s.events := rfl

@[simp] theorem addEvent_pollCount (e : Event) (s : St) : (addEvent e s).pollCount = s.pollCount := rfl

@[simp] theorem addEvent_rng (e : Event) (s : St) : (addEvent e s).rng = s.rng := rfl

@[simp] theorem addEvent_rngUsed (e : Event) (s : St) : (addEvent e s).rngUsed = s.rngUsed := rfl

@[simp] theorem ssmPutParam_ssm (n v : String) (s : St) :
    (ssmPutParam n v s).ssm = (n, v) :: s.ssm := rfl

@[simp] theorem ssmPutParam_s3 (n v : String) (s : St) : (ssmPutParam n v s).s3 = s.s3 := rfl

@[simp] theorem ssmPutParam_events (n v : String) (s : St) :
    (ssmPutParam n v s).events = Event.ssmPut n v :: s.events := rfl

@[simp] theorem ssmPutParam_pollCount (n v : String) (s : St) :
    (ssmPutParam n v s).pollCount = s.pollCount := rfl

@[simp] theorem ssmPutParam_rng (n v : String) (s : St) : (ssmPutParam n v s).rng = s.rng := rfl

@[simp] theorem ssmPutParam_rngUsed (n v : String) (s : St) :
    (ssmPutParam n v s).rngUsed = s.rngUsed := rfl

@[simp] theorem s3Put_ssm (b k v : String) (s : St) : (s3Put b k v s).ssm = s.ssm := rfl

@[simp] theorem s3Put_s3 (b k v : String) (s : St) :
    (s3Put b k v s).s3 = ((b, k), v) :: s.s3 := rfl

@[simp] theorem s3Put_events (b k v : String) (s : St) :
    (s3Put b k v s).events = Event.s3PutObj b k v :: s.events := rfl

@[simp] theorem ssmLookup_cons (n v m : String) (l : List (String × String)) :
    ssmLookup ((n, v) :: l) m = if n == m then some v else ssmLookup l m := by
  cases h : n == m <;> simp [ssmLookup, List.find?_cons, h]

theorem beq_empty_eq_false {v : String} (h : v ≠ EMPTY_VALUE) :
    (EMPTY_VALUE == v) = false := by
  simp only [beq_eq_false_iff_ne, ne_eq]
  exact fun hh => h hh.symm

theorem get_api_key_fast (dt : DT) (fuel : Nat) {s : St} {v : String}
    (hv : ssmLookup s.ssm DT_API_KEY = some v) (hvne : v ≠ EMPTY_VALUE) :
    get_api_key dt fuel s = (Except.ok v, addEvent (Event.ssmGet DT_API_KEY) s) := by
  simp [get_api_key, hv, beq_empty_eq_false hvne]

theorem get_root_password_fast (fuel : Nat) {s : St} {p : String}
    (hp : ssmLookup s.ssm DT_ROOT_PWD = some p) (hpne : p ≠ EMPTY_VALUE) :
    get_root_password (fuel + 1) s =
      (Except.ok p, addEvent (Event.ssmGet DT_ROOT_PWD) s) := by
  simp [get_root_password, hp, beq_empty_eq_false hpne]

theorem get_jwt_fast (dt : DT) (fuel : Nat) {s : St} {p : String}
    (hp : ssmLookup s.ssm DT_ROOT_PWD = some p) (hpne : p ≠ EMPTY_VALUE) :
    get_jwt dt (fuel + 1) none s =
      (Except.ok (dt.loginJwt p),
       addEvent (Event.loginCall p) (addEvent (Event.ssmGet DT_ROOT_PWD) s)) := by
  simp [get_jwt, get_root_password_fast fuel hp hpne]

theorem rotate_api_key_succ (dt : DT) (fuel : Nat) {s : St} {v p : String}
    (hv : ssmLookup s.ssm DT_API_KEY = some v) (hvne : v ≠ EMPTY_VALUE)
    (hp : ssmLookup s.ssm DT_ROOT_PWD = some p) (hpne : p ≠ EMPTY_VALUE) :
    rotate_api_key dt (fuel + 1) s =
      (Except.ok none,
       ssmPutParam DT_API_KEY (dt.rotateKey v)
         (addEvent (Event.rotateCall v)
           (addEvent (Event.loginCall p)
             (addEvent (Event.ssmGet DT_ROOT_PWD)
               (addEvent (Event.ssmGet DT_API_KEY) s))))) := by
  have hp2 : ssmLookup (addEvent (Event.ssmGet DT_API_KEY) s).ssm DT_ROOT_PWD = some p := by
    simpa using hp
  unfold rotate_api_key
  rw [get_api_key_fast dt (fuel + 1) hv hvne]
  simp [get_jwt_fast dt fuel hp2 hpne]

theorem rotate_api_key_zero (dt : DT) {s : St} {v : String}
    (hv : ssmLookup s.ssm DT_API_KEY = some v) (hvne : v ≠ EMPTY_VALUE) :
    rotate_api_key dt 0 s =
      (Except.error Err.outOfFuel, addEvent (Event.ssmGet DT_API_KEY) s) := by
  unfold rotate_api_key
  rw [get_api_key_fast dt 0 hv hvne]
  simp [get_jwt, get_root_password]

theorem create_project_unroll (dt : DT) (fuel : Nat) {s : St} {v : String}
    (hv : ssmLookup s.ssm DT_API_KEY = some v) (hvne : v ≠ EMPTY_VALUE)
    (h401 : dt.createStatus v = 401) :
    create_project dt (fuel + 1) s =
      (match rotate_api_key dt fuel
          { ssm := s.ssm, s3 := s.s3,
            events := Event.createProjectCall v :: Event.ssmGet DT_API_KEY :: s.events,
            pollCount := s.pollCount, rng := s.rng, rngUsed := s.rngUsed + 1 } with
        | (Except.error e, s) => (Except.error e, s)
        | (Except.ok _, s) => create_project dt fuel s) := by
  simp only [create_project]
  rw [get_api_key_fast dt fuel hv hvne]
  simp [freshUuid, h401, addEvent]

/-- C1 (amended claim): on a 401 from project creation the client rotates the
API key and retries by unbounded self-recursion, with no retry limit and no
`AnalyzerAuthError`; against an Analyzer that always answers 401,
`__create_project` never returns, whatever fuel it is given.  Upload, status
polling and findings retrieval contain no 401 handling at all in the source. -/
theorem C1_amended_thm (dt : DT)
    (h401 : ∀ k, dt.createStatus k = 401)
    (hrot : ∀ k, dt.rotateKey k ≠ EMPTY_VALUE) :
    ∀ fuel s, GoodSt s → (create_project dt fuel s).fst = Except.error Err.outOfFuel := by
  intro fuel
  induction fuel with
  | zero =>
    intro s _
    simp [create_project]
  | succ fuel ih =>
    intro s hs
    obtain ⟨⟨v, hv, hvne⟩, p, hp, hpne⟩ := hs
    rw [create_project_unroll dt fuel hv hvne (h401 v)]
    cases fuel with
    | zero =>
      rw [rotate_api_key_zero dt
        (s := { ssm := s.ssm, s3 := s.s3,
                events := Event.createProjectCall v :: Event.ssmGet DT_API_KEY :: s.events,
                pollCount := s.pollCount, rng := s.rng, rngUsed := s.rngUsed + 1 }) hv hvne]
    | succ f =>
      rw [rotate_api_key_succ dt f
        (s := { ssm := s.ssm, s3 := s.s3,
                events := Event.createProjectCall v :: Event.ssmGet DT_API_KEY :: s.events,
                pollCount := s.pollCount, rng := s.rng, rngUsed := s.rngUsed + 1 }) hv hvne hp hpne]
      exact ih _ ⟨⟨dt.rotateKey v, by simp, hrot v⟩, p,
        by simpa [DT_API_KEY, DT_ROOT_PWD] using hp, hpne⟩

/-- C1 counterexample: against the always-401 stub Analyzer `dt401`, a run of
`__create_project` with fuel 4 performs three rotation attempts (not exactly
one) and is still recursing when the fuel runs out; no auth error is ever
raised. -/
theorem C1_cex :
    (create_project dt401 4 st0).fst = Except.error Err.outOfFuel ∧
    rotCount (create_project dt401 4 st0).snd.events = 3 := ⟨rfl, rfl⟩

/-- C1 witness for the amended theorem at a concrete input. -/
theorem C1_wit : (create_project dt401 6 st0).fst = Except.error Err.outOfFuel :=
  C1_amended_thm dt401 (fun _ => rfl) (fun _ => by simp [dt401, EMPTY_VALUE]) 6 st0
    ⟨⟨"k0", by decide, by decide⟩, "pw", by decide, by decide⟩

/-- C2 (amended claim): the polling phase of `__get_findings` queries job
status and sleeps a fixed 500 ms between polls, but has no upper bound on
total wait time and raises no `TimeoutError`: against an Analyzer that always
reports processing, the loop is still running whatever fuel it is given, and
every event it emits is a status poll or a 500 ms sleep. -/
theorem C2_amended_thm (dt : DT) (hproc : ∀ n, dt.processing n = true)
    (key tok : String) :
    ∀ fuel s, (findingsPollLoop dt key tok fuel s).fst = Except.error Err.outOfFuel ∧
      ∃ l, pollDeltaOnly l ∧
        (findingsPollLoop dt key tok fuel s).snd.events = l ++ s.events := by
  intro fuel
  induction fuel with
  | zero =>
    intro s
    exact ⟨rfl, [], fun e he => absurd he (List.not_mem_nil e), rfl⟩
  | succ fuel ih =>
    intro s
    have hstep : findingsPollLoop dt key tok (fuel + 1) s =
        findingsPollLoop dt key tok fuel
          { ssm := s.ssm, s3 := s.s3,
            events := Event.sleepMs 500 :: Event.statusPollCall key tok :: s.events,
            pollCount := s.pollCount + 1, rng := s.rng, rngUsed := s.rngUsed } := by
      simp [findingsPollLoop, findings_ready, hproc, addEvent]
    obtain ⟨h1, l, hl, h2⟩ := ih
      { ssm := s.ssm, s3 := s.s3,
        events := Event.sleepMs 500 :: Event.statusPollCall key tok :: s.events,
        pollCount := s.pollCount + 1, rng := s.rng, rngUsed := s.rngUsed }
    refine ⟨by rw [hstep]; exact h1,
      l ++ [Event.sleepMs 500, Event.statusPollCall key tok], ?_, ?_⟩
    · intro e he
      rcases List.mem_append.mp he with h | h
      · exact hl e h
      · simp only [List.mem_cons, List.not_mem_nil, or_false] at h
        rcases h with rfl | rfl
        · exact Or.inr rfl
        · exact Or.inl ⟨key, tok, rfl⟩
    · rw [hstep, h2]
      simp

set_option maxRecDepth 4000 in
/-- C2 counterexample: against the always-processing stub Analyzer `dt401`,
after 100 iterations (100 sleeps of 500 ms, 50 seconds of waiting) the polling
loop of `__get_findings` is still running; no `TimeoutError` is raised — the
embedding has no such outcome because the source raises none. -/
theorem C2_cex :
    (findingsPollLoop dt401 "k0" "tok" 100 st0).fst = Except.error Err.outOfFuel ∧
    sleepCount (findingsPollLoop dt401 "k0" "tok" 100 st0).snd.events = 100 := ⟨rfl, rfl⟩

/-- C2 witness for the amended theorem at a concrete input. -/
theorem C2_wit : (findingsPollLoop dt401 "k" "t" 9 st0).fst = Except.error Err.outOfFuel :=
  (C2_amended_thm dt401 (fun _ => rfl) "k" "t" 9 st0).1

/-- C3 (confirmed): starting from a secret store in which the automation API
key is absent or holds the `EMPTY` sentinel, one call to `__get_api_key` reads
the first API key of the Analyzer team named "Automation", issues exactly one
permission-grant call per permission of the fixed nine-element set (the grant
delta below lists each exactly once, and the permission list has no
duplicates), persists that key in the secret store, and returns a value equal
to the persisted key. -/
theorem C3_thm (dt : DT) (fuel : Nat) (s : St) {p : String} {tm : Team}
    {k : String} {ks : List String}
    (hkey : ssmLookup s.ssm DT_API_KEY = none ∨
      ssmLookup s.ssm DT_API_KEY = some EMPTY_VALUE)
    (hp : ssmLookup s.ssm DT_ROOT_PWD = some p) (hpne : p ≠ EMPTY_VALUE)
    (ht : dt.teams.find? (fun t => t.name == "Automation") = some tm)
    (hks : tm.apiKeys = k :: ks) :
    (get_api_key dt (fuel + 1) s).fst = Except.ok k ∧
    ssmLookup (get_api_key dt (fuel + 1) s).snd.ssm DT_API_KEY = some k ∧
    grantsOf (get_api_key dt (fuel + 1) s).snd.events =
      (dtPermissions.map (fun perm => (perm, tm.uuid))).reverse ++ grantsOf s.events ∧
    dtPermissions.Nodup := by
  rcases hkey with h | h <;>
    simp [get_api_key, set_initial_api_key_in_ssm, get_automation_team_data_from_dt,
      get_teams, set_team_permissions, get_jwt, get_root_password,
      addEvent, ssmPutParam, freshUuid, dtPermissions, grantsOf,
      h, hp, beq_empty_eq_false hpne, ht, hks]

/-- C3 witness for the theorem at a concrete input: a fresh store holding only
the root password, against the stub Analyzer with Automation key "k0". -/
theorem C3_wit : (get_api_key dtGood 6 stBoot).fst = Except.ok "k0" :=
  (C3_thm dtGood 5 stBoot (Or.inl rfl) rfl (by decide) rfl rfl).1

/-- C4 (confirmed): starting from an admin credential that is absent or holds
the `EMPTY` sentinel, `__get_root_password` performs exactly one
force-change-password call (with the well-known default password and the
freshly generated random value), persists the new value exactly once, performs
exactly one re-read of the secret (the second `ssmGet` in the delta, the first
being the initial lookup), and returns the new value rather than the default;
the self-recursion terminates after one extra lookup because the store is
read-your-writes. -/
theorem C4_thm (fuel : Nat) (s : St)
    (h1 : ssmLookup s.ssm DT_ROOT_PWD = none ∨
      ssmLookup s.ssm DT_ROOT_PWD = some EMPTY_VALUE)
    (h2 : s.rng s.rngUsed ≠ EMPTY_VALUE)
    (h3 : s.rng s.rngUsed ≠ DT_DEFAULT_ADMIN_PWD) :
    (get_root_password (fuel + 2) s).fst = Except.ok (s.rng s.rngUsed) ∧
    s.rng s.rngUsed ≠ DT_DEFAULT_ADMIN_PWD ∧
    ssmLookup (get_root_password (fuel + 2) s).snd.ssm DT_ROOT_PWD =
      some (s.rng s.rngUsed) ∧
    (get_root_password (fuel + 2) s).snd.events =
      Event.ssmGet DT_ROOT_PWD ::
      Event.ssmPut DT_ROOT_PWD (s.rng s.rngUsed) ::
      Event.forceChangePwd DT_DEFAULT_ADMIN_PWD DT_DEFAULT_ADMIN_PWD (s.rng s.rngUsed) ::
      Event.ssmGet DT_ROOT_PWD :: s.events := by
  refine ⟨?_, h3, ?_, ?_⟩ <;>
    rcases h1 with h | h <;>
      simp [get_root_password, change_dt_root_pwd, freshUuid, addEvent, ssmPutParam,
        h, beq_empty_eq_false h2]

/-- C4 witness for the theorem at a concrete input: a store holding only the
automation API key (root password absent). -/
theorem C4_wit : (get_root_password 5 stNoRoot).fst = Except.ok "uuid" :=
  (C4_thm 3 stNoRoot (Or.inl rfl) (by decide) (by decide)).1

theorem Benign_nil : Benign [] := fun e he => absurd he (List.not_mem_nil e)

theorem Benign_append {l1 l2 : List Event} (h1 : Benign l1) (h2 : Benign l2) :
    Benign (l1 ++ l2) := by
  intro e he
  rcases List.mem_append.mp he with h | h
  · exact h1 e h
  · exact h2 e h

theorem ExtBenign_refl (s : St) : ExtBenign s s := ⟨rfl, [], Benign_nil, rfl⟩

theorem ExtBenign_trans {s1 s2 s3 : St} (h12 : ExtBenign s1 s2) (h23 : ExtBenign s2 s3) :
    ExtBenign s1 s3 := by
  obtain ⟨ha, l1, hb1, he1⟩ := h12
  obtain ⟨hb, l2, hb2, he2⟩ := h23
  exact ⟨hb.trans ha, l2 ++ l1, Benign_append hb2 hb1,
    by rw [he2, he1, List.append_assoc]⟩

theorem ExtBenign_addEvent (e : Event) (hb : benignEvent e = true) (s : St) :
    ExtBenign s (addEvent e s) := by
  refine ⟨rfl, [e], ?_, rfl⟩
  intro x hx
  simp only [List.mem_cons, List.not_mem_nil, or_false] at hx
  subst hx
  exact hb

theorem ExtBenign_ssmPutParam (n v : String) (s : St) :
    ExtBenign s (ssmPutParam n v s) := by
  refine ⟨rfl, [Event.ssmPut n v], ?_, rfl⟩
  intro x hx
  simp only [List.mem_cons, List.not_mem_nil, or_false] at hx
  subst hx
  rfl

theorem ExtBenign_pollBump (s : St) :
    ExtBenign s { s with pollCount := s.pollCount + 1 } := ⟨rfl, [], Benign_nil, rfl⟩

theorem change_dt_root_pwd_ext (s : St) : ExtBenign s (change_dt_root_pwd s).snd := by
  refine ⟨rfl, [Event.ssmPut DT_ROOT_PWD (s.rng s.rngUsed),
    Event.forceChangePwd DT_DEFAULT_ADMIN_PWD DT_DEFAULT_ADMIN_PWD (s.rng s.rngUsed)],
    ?_, rfl⟩
  intro x hx
  simp only [List.mem_cons, List.not_mem_nil, or_false] at hx
  rcases hx with rfl | rfl <;> rfl

theorem get_root_password_ext : ∀ fuel s, ExtBenign s (get_root_password fuel s).snd := by
  intro fuel
  induction fuel with
  | zero => intro s; exact ExtBenign_refl s
  | succ fuel ih =>
    intro s
    have hbase : ExtBenign s (addEvent (Event.ssmGet DT_ROOT_PWD) s) :=
      ExtBenign_addEvent (Event.ssmGet DT_ROOT_PWD) rfl s
    simp only [get_root_password, addEvent_ssm]
    split
    · split
      · exact ExtBenign_trans (ExtBenign_trans hbase
          (change_dt_root_pwd_ext (addEvent (Event.ssmGet DT_ROOT_PWD) s))) (ih _)
      · exact hbase
    · exact ExtBenign_trans (ExtBenign_trans hbase
        (change_dt_root_pwd_ext (addEvent (Event.ssmGet DT_ROOT_PWD) s))) (ih _)

theorem get_jwt_ext (dt : DT) (fuel : Nat) (rp : Option String) (s : St) :
    ExtBenign s (get_jwt dt fuel rp s).snd := by
  cases rp with
  | some pwd => exact ExtBenign_addEvent (Event.loginCall pwd) rfl s
  | none =>
    simp only [get_jwt]
    cases hg : get_root_password fuel s with
    | mk r s2 =>
      have h2 : ExtBenign s s2 := by
        have h3 := get_root_password_ext fuel s
        rwa [hg] at h3
      cases r with
      | error e => exact h2
      | ok pwd => exact ExtBenign_trans h2 (ExtBenign_addEvent (Event.loginCall pwd) rfl s2)

theorem get_teams_ext (dt : DT) (fuel : Nat) (s : St) :
    ExtBenign s (get_teams dt fuel s).snd := by
  simp only [get_teams]
  cases hg : get_jwt dt fuel none s with
  | mk r s2 =>
    have h2 : ExtBenign s s2 := by
      have h3 := get_jwt_ext dt fuel none s
      rwa [hg] at h3
    cases r with
    | error e => exact h2
    | ok j => exact ExtBenign_trans h2 (ExtBenign_addEvent Event.getTeamsCall rfl s2)

theorem get_automation_team_data_ext (dt : DT) (fuel : Nat) (s : St) :
    ExtBenign s (get_automation_team_data_from_dt dt fuel s).snd := by
  simp only [get_automation_team_data_from_dt]
  cases hg : get_teams dt fuel s with
  | mk r s2 =>
    have h2 : ExtBenign s s2 := by
      have h3 := get_teams_ext dt fuel s
      rwa [hg] at h3
    cases r with
    | error e => exact h2
    | ok teams =>
      dsimp only
      split
      · split
        · exact h2
        · exact h2
      · exact h2

theorem ExtBenign_rngBump (s : St) :
    ExtBenign s { s with rngUsed := s.rngUsed + 1 } := ⟨rfl, [], Benign_nil, rfl⟩

theorem ExtBenign_grantFold (u : String) :
    ∀ (ps : List String) (s : St),
      ExtBenign s (ps.foldl (fun s perm => addEvent (Event.grantPermission perm u) s) s) := by
  intro ps
  induction ps with
  | nil => intro s; exact ExtBenign_refl s
  | cons a ps ih =>
    intro s
    simp only [List.foldl_cons]
    exact ExtBenign_trans (ExtBenign_addEvent (Event.grantPermission a u) rfl s) (ih _)

theorem set_team_permissions_ext (dt : DT) (fuel : Nat) (u : String) (s : St) :
    ExtBenign s (set_team_permissions dt fuel u s).snd := by
  simp only [set_team_permissions]
  cases hg : get_jwt dt fuel none s with
  | mk r s2 =>
    have h2 : ExtBenign s s2 := by
      have h3 := get_jwt_ext dt fuel none s
      rwa [hg] at h3
    cases r with
    | error e => exact h2
    | ok j => exact ExtBenign_trans h2 (ExtBenign_grantFold u dtPermissions s2)

theorem set_initial_api_key_in_ssm_ext (dt : DT) (fuel : Nat) (s : St) :
    ExtBenign s (set_initial_api_key_in_ssm dt fuel s).snd := by
  simp only [set_initial_api_key_in_ssm]
  cases hg : get_automation_team_data_from_dt dt fuel s with
  | mk r s2 =>
    have h2 : ExtBenign s s2 := by
      have h3 := get_automation_team_data_ext dt fuel s
      rwa [hg] at h3
    cases r with
    | error e => exact h2
    | ok x =>
      cases x with
      | mk u k =>
        dsimp only
        cases hs : set_team_permissions dt fuel u s2 with
        | mk r2 s3 =>
          have h3 : ExtBenign s2 s3 := by
            have h4 := set_team_permissions_ext dt fuel u s2
            rwa [hs] at h4
          cases r2 with
          | error e => exact ExtBenign_trans h2 h3
          | ok w2 =>
            exact ExtBenign_trans (ExtBenign_trans h2 h3) (ExtBenign_ssmPutParam DT_API_KEY k s3)

theorem get_api_key_ext (dt : DT) (fuel : Nat) (s : St) :
    ExtBenign s (get_api_key dt fuel s).snd := by
  have hbase : ExtBenign s (addEvent (Event.ssmGet DT_API_KEY) s) :=
    ExtBenign_addEvent (Event.ssmGet DT_API_KEY) rfl s
  simp only [get_api_key, addEvent_ssm]
  split
  · split
    · exact ExtBenign_trans hbase
        (set_initial_api_key_in_ssm_ext dt fuel (addEvent (Event.ssmGet DT_API_KEY) s))
    · exact hbase
  · exact ExtBenign_trans hbase
      (set_initial_api_key_in_ssm_ext dt fuel (addEvent (Event.ssmGet DT_API_KEY) s))

theorem rotate_api_key_ext (dt : DT) (fuel : Nat) (s : St) :
    ExtBenign s (rotate_api_key dt fuel s).snd := by
  simp only [rotate_api_key]
  cases hg : get_api_key dt fuel s with
  | mk r s2 =>
    have h2 : ExtBenign s s2 := by
      have h3 := get_api_key_ext dt fuel s
      rwa [hg] at h3
    cases r with
    | error e => exact h2
    | ok old_key =>
      dsimp only
      cases hj : get_jwt dt fuel none s2 with
      | mk r2 s3 =>
        have h3 : ExtBenign s2 s3 := by
          have h4 := get_jwt_ext dt fuel none s2
          rwa [hj] at h4
        cases r2 with
        | error e => exact ExtBenign_trans h2 h3
        | ok j =>
          exact ExtBenign_trans (ExtBenign_trans h2 h3)
            (ExtBenign_trans (ExtBenign_addEvent (Event.rotateCall old_key) rfl s3)
              (ExtBenign_ssmPutParam DT_API_KEY (dt.rotateKey old_key) _))

theorem findings_ready_ext (dt : DT) (key tok : String) (s : St) :
    ExtBenign s (findings_ready dt key tok s).snd := by
  refine ⟨rfl, [Event.statusPollCall key tok], ?_, rfl⟩
  intro x hx
  simp only [List.mem_cons, List.not_mem_nil, or_false] at hx
  subst hx
  rfl

theorem findingsPollLoop_ext (dt : DT) (key tok : String) :
    ∀ fuel s, ExtBenign s (findingsPollLoop dt key tok fuel s).snd := by
  intro fuel
  induction fuel with
  | zero => intro s; exact ExtBenign_refl s
  | succ fuel ih =>
    intro s
    simp only [findingsPollLoop]
    cases hf : findings_ready dt key tok s with
    | mk ready s2 =>
      have h2 : ExtBenign s s2 := by
        have h3 := findings_ready_ext dt key tok s
        rwa [hf] at h3
      cases ready with
      | true => exact h2
      | false =>
        dsimp only
        exact ExtBenign_trans
          (ExtBenign_trans h2 (ExtBenign_addEvent (Event.sleepMs 500) rfl s2)) (ih _)

theorem get_findings_ext (dt : DT) (fuel : Nat) (pu tok : String) (s : St) :
    ExtBenign s (get_findings dt fuel pu tok s).snd := by
  simp only [get_findings]
  cases hg : get_api_key dt fuel s with
  | mk r s2 =>
    have h2 : ExtBenign s s2 := by
      have h3 := get_api_key_ext dt fuel s
      rwa [hg] at h3
    cases r with
    | error e => exact h2
    | ok key =>
      dsimp only
      cases hp : findingsPollLoop dt key tok fuel s2 with
      | mk r2 s3 =>
        have h3 : ExtBenign s2 s3 := by
          have h4 := findingsPollLoop_ext dt key tok fuel s2
          rwa [hp] at h4
        cases r2 with
        | error e => exact ExtBenign_trans h2 h3
        | ok w2 =>
          exact ExtBenign_trans (ExtBenign_trans h2 h3)
            (ExtBenign_addEvent (Event.findingsCall key pu) rfl s3)

theorem upload_sbom_ext (dt : DT) (fuel : Nat) (pu b : String) (s : St) :
    ExtBenign s (upload_sbom dt fuel pu b s).snd := by
  simp only [upload_sbom]
  cases hg : get_api_key dt fuel s with
  | mk r s2 =>
    have h2 : ExtBenign s s2 := by
      have h3 := get_api_key_ext dt fuel s
      rwa [hg] at h3
    cases r with
    | error e => exact h2
    | ok key =>
      exact ExtBenign_trans h2 (ExtBenign_addEvent (Event.uploadCall key pu) rfl s2)

theorem create_project_ext (dt : DT) :
    ∀ fuel s, ExtBenign s (create_project dt fuel s).snd := by
  intro fuel
  induction fuel with
  | zero => intro s; exact ExtBenign_refl s
  | succ fuel ih =>
    intro s
    simp only [create_project]
    cases hg : get_api_key dt fuel s with
    | mk r s2 =>
      have h2 : ExtBenign s s2 := by
        have h3 := get_api_key_ext dt fuel s
        rwa [hg] at h3
      cases r with
      | error e => exact h2
      | ok key =>
        dsimp only [freshUuid]
        have h4 : ExtBenign s
            (addEvent (Event.createProjectCall key) { s2 with rngUsed := s2.rngUsed + 1 }) :=
          ExtBenign_trans (ExtBenign_trans h2 (ExtBenign_rngBump s2))
            (ExtBenign_addEvent (Event.createProjectCall key) rfl _)
        split
        · cases hr : rotate_api_key dt fuel
            (addEvent (Event.createProjectCall key) { s2 with rngUsed := s2.rngUsed + 1 }) with
          | mk r2 s3 =>
            have h5 : ExtBenign
                (addEvent (Event.createProjectCall key) { s2 with rngUsed := s2.rngUsed + 1 })
                s3 := by
              have h6 := rotate_api_key_ext dt fuel
                (addEvent (Event.createProjectCall key) { s2 with rngUsed := s2.rngUsed + 1 })
              rwa [hr] at h6
            cases r2 with
            | error e => exact ExtBenign_trans h4 h5
            | ok w => exact ExtBenign_trans (ExtBenign_trans h4 h5) (ih _)
        · exact h4

theorem create_project_ok (dt : DT) :
    ∀ fuel s u, (create_project dt fuel s).fst = Except.ok u → u = dt.createUuid := by
  intro fuel
  induction fuel with
  | zero =>
    intro s u h
    simp [create_project] at h
  | succ fuel ih =>
    intro s u h
    simp only [create_project] at h
    cases hg : get_api_key dt fuel s with
    | mk r s2 =>
      rw [hg] at h
      cases r with
      | error e => simp at h
      | ok key =>
        dsimp only [freshUuid] at h
        split at h
        · cases hr : rotate_api_key dt fuel
            (addEvent (Event.createProjectCall key) { s2 with rngUsed := s2.rngUsed + 1 }) with
          | mk r2 s3 =>
            rw [hr] at h
            cases r2 with
            | error e => simp at h
            | ok w => exact ih s3 u h
        · simp only [Prod.fst] at h
          exact (Except.ok.injEq _ _).mp h.symm

theorem upload_sbom_ok (dt : DT) (fuel : Nat) (pu b : String) (s : St) {tok : String}
    (h : (upload_sbom dt fuel pu b s).fst = Except.ok tok) : tok = dt.uploadToken := by
  simp only [upload_sbom] at h
  cases hg : get_api_key dt fuel s with
  | mk r s2 =>
    rw [hg] at h
    cases r with
    | error e => simp at h
    | ok key =>
      simp only [Prod.fst] at h
      exact (Except.ok.injEq _ _).mp h.symm

theorem get_findings_ok (dt : DT) (fuel : Nat) (pu tok : String) (s : St) {j : String}
    (h : (get_findings dt fuel pu tok s).fst = Except.ok j) : j = dt.findingsJson pu := by
  simp only [get_findings] at h
  cases hg : get_api_key dt fuel s with
  | mk r s2 =>
    rw [hg] at h
    cases r with
    | error e => simp at h
    | ok key =>
      dsimp only at h
      cases hp : findingsPollLoop dt key tok fuel s2 with
      | mk r2 s3 =>
        rw [hp] at h
        cases r2 with
        | error e => simp at h
        | ok w =>
          simp only [Prod.fst] at h
          exact (Except.ok.injEq _ _).mp h.symm

theorem deletedProjects_cons_benign {a : Event} (h : benignEvent a = true) (es : List Event) :
    deletedProjects (a :: es) = deletedProjects es := by
  cases a <;>
    first
    | exact Bool.noConfusion h
    | simp [deletedProjects, List.filterMap_cons]

theorem warnCount_cons_benign {a : Event} (h : benignEvent a = true) (es : List Event) :
    warnCount (a :: es) = warnCount es := by
  cases a <;>
    first
    | exact Bool.noConfusion h
    | simp [warnCount, List.countP_cons]

theorem deletedProjects_append_benign {l : List Event} (hb : Benign l) (es : List Event) :
    deletedProjects (l ++ es) = deletedProjects es := by
  induction l with
  | nil => rfl
  | cons a l ih =>
    have ha := hb a (List.mem_cons_self a l)
    have hl : Benign l := fun e he => hb e (List.mem_cons_of_mem a he)
    rw [List.cons_append, deletedProjects_cons_benign ha, ih hl]

theorem warnCount_append_benign {l : List Event} (hb : Benign l) (es : List Event) :
    warnCount (l ++ es) = warnCount es := by
  induction l with
  | nil => rfl
  | cons a l ih =>
    have ha := hb a (List.mem_cons_self a l)
    have hl : Benign l := fun e he => hb e (List.mem_cons_of_mem a he)
    rw [List.cons_append, warnCount_cons_benign ha, ih hl]

theorem deletedProjects_cons_delete (ak u : String) (es : List Event) :
    deletedProjects (Event.deleteProjectCall ak u :: es) = u :: deletedProjects es := by
  simp [deletedProjects, List.filterMap_cons]

theorem deletedProjects_cons_s3put (b k v : String) (es : List Event) :
    deletedProjects (Event.s3PutObj b k v :: es) = deletedProjects es := by
  simp [deletedProjects, List.filterMap_cons]

theorem warnCount_cons_delete (ak u : String) (es : List Event) :
    warnCount (Event.deleteProjectCall ak u :: es) = warnCount es := by
  simp [warnCount, List.countP_cons]

theorem warnCount_cons_s3put (b k v : String) (es : List Event) :
    warnCount (Event.s3PutObj b k v :: es) = warnCount es := by
  simp [warnCount, List.countP_cons]

theorem ExtBenign_deleted {a b : St} (h : ExtBenign a b) :
    deletedProjects b.events = deletedProjects a.events := by
  obtain ⟨_, l, hb, he⟩ := h
  rw [he]
  exact deletedProjects_append_benign hb _

theorem ExtBenign_warn {a b : St} (h : ExtBenign a b) :
    warnCount b.events = warnCount a.events := by
  obtain ⟨_, l, hb, he⟩ := h
  rw [he]
  exact warnCount_append_benign hb _

theorem delete_project_char (dt : DT) (fuel : Nat) (u : String) (s : St) :
    (delete_project dt fuel u s).snd.s3 = s.s3 ∧
    warnCount (delete_project dt fuel u s).snd.events = warnCount s.events ∧
    ((delete_project dt fuel u s).fst = Except.ok () →
      deletedProjects (delete_project dt fuel u s).snd.events =
        u :: deletedProjects s.events) := by
  simp only [delete_project]
  cases hg : get_api_key dt fuel s with
  | mk r s2 =>
    have h2 : ExtBenign s s2 := by
      have h3 := get_api_key_ext dt fuel s
      rwa [hg] at h3
    cases r with
    | error e =>
      exact ⟨h2.1, ExtBenign_warn h2, by intro hcon; simp at hcon⟩
    | ok k =>
      refine ⟨h2.1, ?_, ?_⟩
      · rw [addEvent_events, warnCount_cons_delete]
        exact ExtBenign_warn h2
      · intro hok
        rw [addEvent_events, deletedProjects_cons_delete]
        rw [ExtBenign_deleted h2]

/-- C5 (confirmed): for every triggering message carrying a (bucket, key)
pair, a successful run of `dt_interface_handler` leaves the findings JSON of
the created project stored in the same bucket under exactly the key
`"findings-" ++ key`, has invoked project deletion exactly once with the
project id returned at creation (the delete delta below is that single id),
and the findings write is in the trace; success is returned only after the
write because the write is the last state change before the `Except.ok true`
return. -/
theorem C5_thm (dt : DT) (fuel : Nat) (bucket key : String) (s : St)
    (h : (dt_interface_handler dt fuel bucket key s).fst = Except.ok true) :
    s3Lookup (dt_interface_handler dt fuel bucket key s).snd.s3 bucket ("findings-" ++ key)
      = some (dt.findingsJson dt.createUuid) ∧
    deletedProjects (dt_interface_handler dt fuel bucket key s).snd.events
      = dt.createUuid :: deletedProjects s.events ∧
    Event.s3PutObj bucket ("findings-" ++ key) (dt.findingsJson dt.createUuid)
      ∈ (dt_interface_handler dt fuel bucket key s).snd.events := by
  simp only [dt_interface_handler, addEvent_s3] at h ⊢
  cases hs3 : s3Lookup s.s3 bucket key with
  | none =>
    rw [hs3] at h
    simp at h
  | some sbom =>
    rw [hs3] at h
    dsimp only at h ⊢
    cases hc : create_project dt fuel (addEvent (Event.s3GetObj bucket key) s) with
    | mk rc s2 =>
      rw [hc] at h
      cases rc with
      | error e => simp at h
      | ok pu =>
        dsimp only at h ⊢
        have hpu : pu = dt.createUuid :=
          create_project_ok dt fuel (addEvent (Event.s3GetObj bucket key) s) pu (by rw [hc])
        have hext2 : ExtBenign (addEvent (Event.s3GetObj bucket key) s) s2 := by
          have h4 := create_project_ext dt fuel (addEvent (Event.s3GetObj bucket key) s)
          rwa [hc] at h4
        cases hu : upload_sbom dt fuel pu sbom s2 with
        | mk ru s3 =>
          rw [hu] at h
          cases ru with
          | error e => simp at h
          | ok tok =>
            dsimp only at h ⊢
            have hext3 : ExtBenign s2 s3 := by
              have h4 := upload_sbom_ext dt fuel pu sbom s2
              rwa [hu] at h4
            cases hf : get_findings dt fuel pu tok s3 with
            | mk rf s4 =>
              rw [hf] at h
              cases rf with
              | error e => simp at h
              | ok fj =>
                dsimp only at h ⊢
                have hfj : fj = dt.findingsJson pu :=
                  get_findings_ok dt fuel pu tok s3 (by rw [hf])
                have hext4 : ExtBenign s3 s4 := by
                  have h4 := get_findings_ext dt fuel pu tok s3
                  rwa [hf] at h4
                cases hd : delete_project dt fuel pu s4 with
                | mk rd s5 =>
                  rw [hd] at h
                  cases rd with
                  | error e => simp at h
                  | ok w =>
                    dsimp only at h ⊢
                    obtain ⟨hd3, hdw, hddel⟩ := delete_project_char dt fuel pu s4
                    rw [hd] at hd3 hddel
                    have hdel5 : deletedProjects s5.events =
                        pu :: deletedProjects s4.events := hddel rfl
                    subst hfj
                    subst hpu
                    refine ⟨?_, ?_, ?_⟩
                    · simp [s3Put, s3Lookup, List.find?_cons]
                    · rw [s3Put_events, deletedProjects_cons_s3put, hdel5,
                        ExtBenign_deleted hext4, ExtBenign_deleted hext3,
                        ExtBenign_deleted hext2, addEvent_events,
                        deletedProjects_cons_benign (a := Event.s3GetObj bucket key) rfl]
                    · rw [s3Put_events]
                      exact List.mem_cons_self _ _

/-- C5 witness for the theorem at the concrete scenario of the spec: SBOM at
(bucket "sboms", key "sbom-abc"), two processing polls then ready, findings
stored at key "findings-sbom-abc". -/
theorem C5_wit :
    s3Lookup (dt_interface_handler dtGood 10 "sboms" "sbom-abc" stGood).snd.s3
      "sboms" ("findings-" ++ "sbom-abc") = some "FINDINGS" :=
  (C5_thm dtGood 10 "sboms" "sbom-abc" stGood (by rfl)).1

@[simp] theorem setDeleteStatus_teams (dt : DT) (n : Nat) :
    (setDeleteStatus dt n).teams = dt.teams := rfl

@[simp] theorem setDeleteStatus_loginJwt (dt : DT) (n : Nat) :
    (setDeleteStatus dt n).loginJwt = dt.loginJwt := rfl

@[simp] theorem setDeleteStatus_rotateKey (dt : DT) (n : Nat) :
    (setDeleteStatus dt n).rotateKey = dt.rotateKey := rfl

@[simp] theorem setDeleteStatus_createStatus (dt : DT) (n : Nat) :
    (setDeleteStatus dt n).createStatus = dt.createStatus := rfl

@[simp] theorem setDeleteStatus_createUuid (dt : DT) (n : Nat) :
    (setDeleteStatus dt n).createUuid = dt.createUuid := rfl

@[simp] theorem setDeleteStatus_uploadToken (dt : DT) (n : Nat) :
    (setDeleteStatus dt n).uploadToken = dt.uploadToken := rfl

@[simp] theorem setDeleteStatus_processing (dt : DT) (n : Nat) :
    (setDeleteStatus dt n).processing = dt.processing := rfl

@[simp] theorem setDeleteStatus_findingsJson (dt : DT) (n : Nat) :
    (setDeleteStatus dt n).findingsJson = dt.findingsJson := rfl

theorem findingsPollLoop_sds (dt : DT) (n : Nat) (key tok : String) :
    ∀ fuel s, findingsPollLoop (setDeleteStatus dt n) key tok fuel s =
      findingsPollLoop dt key tok fuel s := by
  intro fuel
  induction fuel with
  | zero => intro s; rfl
  | succ fuel ih =>
    intro s
    simp only [findingsPollLoop]
    rw [show findings_ready (setDeleteStatus dt n) key tok s =
      findings_ready dt key tok s from rfl]
    cases hf : findings_ready dt key tok s with
    | mk ready s2 =>
      cases ready with
      | true => rfl
      | false =>
        dsimp only
        exact ih _

theorem create_project_sds (dt : DT) (n : Nat) :
    ∀ fuel s, create_project (setDeleteStatus dt n) fuel s = create_project dt fuel s := by
  intro fuel
  induction fuel with
  | zero => intro s; rfl
  | succ fuel ih =>
    intro s
    simp only [create_project]
    rw [show get_api_key (setDeleteStatus dt n) fuel s = get_api_key dt fuel s from rfl]
    cases hgk : get_api_key dt fuel s with
    | mk r s2 =>
      cases r with
      | error e => rfl
      | ok key =>
        dsimp only [freshUuid]
        simp only [setDeleteStatus_createStatus, setDeleteStatus_createUuid]
        rw [show rotate_api_key (setDeleteStatus dt n) fuel
            (addEvent (Event.createProjectCall key) { s2 with rngUsed := s2.rngUsed + 1 }) =
          rotate_api_key dt fuel
            (addEvent (Event.createProjectCall key) { s2 with rngUsed := s2.rngUsed + 1 })
          from rfl]
        split
        · cases hr : rotate_api_key dt fuel
            (addEvent (Event.createProjectCall key) { s2 with rngUsed := s2.rngUsed + 1 }) with
          | mk r2 s3 =>
            cases r2 with
            | error e => rfl
            | ok w =>
              dsimp only
              exact ih _
        · rfl

theorem get_findings_sds (dt : DT) (n fuel : Nat) (pu tok : String) (s : St) :
    get_findings (setDeleteStatus dt n) fuel pu tok s = get_findings dt fuel pu tok s := by
  simp only [get_findings]
  rw [show get_api_key (setDeleteStatus dt n) fuel s = get_api_key dt fuel s from rfl]
  cases hgk : get_api_key dt fuel s with
  | mk r s2 =>
    cases r with
    | error e => rfl
    | ok key =>
      dsimp only
      rw [findingsPollLoop_sds dt n key tok fuel s2]
      cases hp : findingsPollLoop dt key tok fuel s2 with
      | mk r2 s3 =>
        cases r2 with
        | error e => rfl
        | ok w => dsimp only; rw [setDeleteStatus_findingsJson]

theorem dt_interface_handler_sds (dt : DT) (n fuel : Nat) (bucket key : String) (s : St) :
    dt_interface_handler (setDeleteStatus dt n) fuel bucket key s =
      dt_interface_handler dt fuel bucket key s := by
  simp only [dt_interface_handler, addEvent_s3]
  cases hs3 : s3Lookup s.s3 bucket key with
  | none => rfl
  | some sbom =>
    dsimp only
    rw [create_project_sds dt n fuel (addEvent (Event.s3GetObj bucket key) s)]
    cases hc : create_project dt fuel (addEvent (Event.s3GetObj bucket key) s) with
    | mk rc s2 =>
      cases rc with
      | error e => rfl
      | ok pu =>
        dsimp only
        rw [show upload_sbom (setDeleteStatus dt n) fuel pu sbom s2 =
          upload_sbom dt fuel pu sbom s2 from rfl]
        cases hu : upload_sbom dt fuel pu sbom s2 with
        | mk ru s3 =>
          cases ru with
          | error e => rfl
          | ok tok =>
            dsimp only
            rw [get_findings_sds dt n fuel pu tok s3]
            cases hf : get_findings dt fuel pu tok s3 with
            | mk rf s4 =>
              cases rf with
              | error e => rfl
              | ok fj =>
                dsimp only
                rw [show delete_project (setDeleteStatus dt n) fuel pu s4 =
                  delete_project dt fuel pu s4 from rfl]

theorem dt_interface_handler_warn (dt : DT) (fuel : Nat) (bucket key : String) (s : St) :
    warnCount (dt_interface_handler dt fuel bucket key s).snd.events = warnCount s.events := by
  simp only [dt_interface_handler, addEvent_s3]
  have hbase : warnCount (addEvent (Event.s3GetObj bucket key) s).events = warnCount s.events := by
    rw [addEvent_events, warnCount_cons_benign (a := Event.s3GetObj bucket key) rfl]
  cases hs3 : s3Lookup s.s3 bucket key with
  | none => exact hbase
  | some sbom =>
    dsimp only
    cases hc : create_project dt fuel (addEvent (Event.s3GetObj bucket key) s) with
    | mk rc s2 =>
      have h2 : warnCount s2.events = warnCount s.events := by
        have h4 := create_project_ext dt fuel (addEvent (Event.s3GetObj bucket key) s)
        rw [hc] at h4
        rw [ExtBenign_warn h4, hbase]
      cases rc with
      | error e => exact h2
      | ok pu =>
        dsimp only
        cases hu : upload_sbom dt fuel pu sbom s2 with
        | mk ru s3 =>
          have h3 : warnCount s3.events = warnCount s.events := by
            have h4 := upload_sbom_ext dt fuel pu sbom s2
            rw [hu] at h4
            rw [ExtBenign_warn h4, h2]
          cases ru with
          | error e => exact h3
          | ok tok =>
            dsimp only
            cases hf : get_findings dt fuel pu tok s3 with
            | mk rf s4 =>
              have h4c : warnCount s4.events = warnCount s.events := by
                have h5 := get_findings_ext dt fuel pu tok s3
                rw [hf] at h5
                rw [ExtBenign_warn h5, h3]
              cases rf with
              | error e => exact h4c
              | ok fj =>
                dsimp only
                cases hd : delete_project dt fuel pu s4 with
                | mk rd s5 =>
                  have h5c : warnCount s5.events = warnCount s.events := by
                    obtain ⟨hda, hdw, hdc⟩ := delete_project_char dt fuel pu s4
                    rw [hd] at hdw
                    exact hdw.trans h4c
                  cases rd with
                  | error e => exact h5c
                  | ok w =>
                    dsimp only
                    rw [s3Put_events, warnCount_cons_s3put]
                    exact h5c

/-- C6 (amended claim): project deletion is best-effort in the sense that the
delete response is discarded wholesale — the whole run is independent of the
Analyzer delete status, so a failing delete call never prevents the STORED
step — but the failure is silently ignored rather than logged: the source logs
nothing at warning level (zero warnings in any trace), and the delete is not
retried (one delete request per run, per the C5 theorem). -/
theorem C6_amended_thm (dt : DT) (a b fuel : Nat) (bucket key : String) (s : St) :
    dt_interface_handler (setDeleteStatus dt a) fuel bucket key s =
      dt_interface_handler (setDeleteStatus dt b) fuel bucket key s ∧
    warnCount (dt_interface_handler dt fuel bucket key s).snd.events = warnCount s.events :=
  ⟨(dt_interface_handler_sds dt a fuel bucket key s).trans
      (dt_interface_handler_sds dt b fuel bucket key s).symm,
    dt_interface_handler_warn dt fuel bucket key s⟩

/-- C6 counterexample: with the delete-project response forced to status 500,
the run still succeeds and the findings are stored (STORED is reached), but
zero warnings are logged — refuting the logged-warning part of the claim at a
concrete input. -/
theorem C6_cex :
    (dt_interface_handler (setDeleteStatus dtGood 500) 10 "sboms" "sbom-abc" stGood).fst
      = Except.ok true ∧
    s3Lookup (dt_interface_handler (setDeleteStatus dtGood 500) 10 "sboms"
        "sbom-abc" stGood).snd.s3 "sboms" "findings-sbom-abc" = some "FINDINGS" ∧
    warnCount (dt_interface_handler (setDeleteStatus dtGood 500) 10 "sboms"
        "sbom-abc" stGood).snd.events = 0 := ⟨rfl, rfl, rfl⟩

/-- C7 (amended claim): `__rotate_api_key` authenticates as admin (the login
call in the trace), asks the Analyzer to rotate the currently stored key (the
rotate call carries the stored key), and persists the new key value in the
secret store under the API-key name with overwrite — but it returns `None`
(the Python function has no return statement); the caller obtains the new key
only by re-reading the secret store. -/
theorem C7_amended_thm (dt : DT) (fuel : Nat) {s : St} {v p : String}
    (hv : ssmLookup s.ssm DT_API_KEY = some v) (hvne : v ≠ EMPTY_VALUE)
    (hp : ssmLookup s.ssm DT_ROOT_PWD = some p) (hpne : p ≠ EMPTY_VALUE) :
    (rotate_api_key dt (fuel + 1) s).fst = Except.ok none ∧
    ssmLookup (rotate_api_key dt (fuel + 1) s).snd.ssm DT_API_KEY =
      some (dt.rotateKey v) ∧
    (rotate_api_key dt (fuel + 1) s).snd.events =
      Event.ssmPut DT_API_KEY (dt.rotateKey v) :: Event.rotateCall v ::
      Event.loginCall p :: Event.ssmGet DT_ROOT_PWD ::
      Event.ssmGet DT_API_KEY :: s.events := by
  rw [rotate_api_key_succ dt fuel hv hvne hp hpne]
  refine ⟨rfl, ?_, rfl⟩
  simp

/-- C7 counterexample: at a concrete well-provisioned state, the value
`__rotate_api_key` delivers to its caller is `None`, while the rotated key
"k1" is only persisted in the store; in particular the returned value is not
the new key value. -/
theorem C7_cex :
    (rotate_api_key dtGood 3 stGood).fst = Except.ok none ∧
    ssmLookup (rotate_api_key dtGood 3 stGood).snd.ssm DT_API_KEY = some "k1" ∧
    (Except.ok (none : Option String) : Except Err (Option String)) ≠
      Except.ok (some "k1") :=
  ⟨rfl, rfl, fun hcon => Option.noConfusion (Except.ok.inj hcon)⟩

/-- C7 witness for the amended theorem at a concrete input. -/
theorem C7_wit : (rotate_api_key dtGood 4 stGood).fst = Except.ok none :=
  (C7_amended_thm dtGood 3 (s := stGood) (v := "k0") (p := "pw")
    (by decide) (by decide) (by decide) (by decide)).1

/-- C8 (confirmed): whenever the secret store holds an automation API key that
is present and not the `EMPTY` sentinel, `__get_api_key` returns exactly that
stored value, the only event is the one secret-store read (no Analyzer request
and no store write), and the store and blob state are unchanged. -/
theorem C8_thm (dt : DT) (fuel : Nat) {s : St} {v : String}
    (hv : ssmLookup s.ssm DT_API_KEY = some v) (hvne : v ≠ EMPTY_VALUE) :
    get_api_key dt fuel s = (Except.ok v, addEvent (Event.ssmGet DT_API_KEY) s) ∧
    (get_api_key dt fuel s).snd.ssm = s.ssm ∧
    (get_api_key dt fuel s).snd.s3 = s.s3 ∧
    (get_api_key dt fuel s).snd.events = Event.ssmGet DT_API_KEY :: s.events := by
  have h := get_api_key_fast dt fuel hv hvne
  exact ⟨h, by rw [h]; rfl, by rw [h]; rfl, by rw [h]; rfl⟩

/-- C8 witness for the theorem at a concrete input (fuel 0: the fast path
consumes no fuel because it performs no recursion). -/
theorem C8_wit :
    get_api_key dtGood 0 stGood = (Except.ok "k0", addEvent (Event.ssmGet DT_API_KEY) stGood) :=
  (C8_thm dtGood 0 (s := stGood) (v := "k0") (by decide) (by decide)).1

/-- C9 (confirmed): for every team whose stored token list contains the
requested token at position zero, `delete_token_handler` skips the deletion —
the Python falsy-index check `if index:` treats index 0 as not found — so no
remove-update is issued (the second component is `none`) and the handler
returns the 401 no-such-token response even though the token is in the list. -/
theorem C9_thm (table : List (String × List String)) (team_name token : String)
    {rest : List String}
    (h : (table.find? (fun q => q.1 == team_name)).map (fun q => q.2) =
      some (token :: rest)) :
    delete_token_handler table team_name token =
      Except.ok (token_response_obj 401 token
        (some ("No such token(" ++ token ++ ") belongs to team(" ++ team_name ++ ") ")),
        none) ∧
    token ∈ token :: rest := by
  constructor
  · have hidx : get_token_index (token :: rest) token = some 0 := by
      simp [get_token_index]
    simp [delete_token_handler, h, hidx, pyTruthyIdx]
  · exact List.mem_cons_self _ _

/-- C9 witness for the theorem at a concrete input: team "teamA" holds the
token "tok0" at position zero. -/
theorem C9_wit :
    delete_token_handler [("teamA", ["tok0", "tok1"])] "teamA" "tok0" =
      Except.ok (token_response_obj 401 "tok0"
        (some ("No such token(" ++ "tok0" ++ ") belongs to team(" ++ "teamA" ++ ") ")),
        none) :=
  (C9_thm [("teamA", ["tok0", "tok1"])] "teamA" "tok0"
    (show (List.find? (fun q => q.1 == "teamA") [("teamA", ["tok0", "tok1"])]).map
      (fun q => q.2) = some ("tok0" :: ["tok1"]) from rfl)).1

/-- C10 (confirmed): when the SBOM body fails validation,
`pristine_sbom_ingress_handler` writes nothing to blob storage (the state is
unchanged except for the consumed uuid) and returns statusCode 400 with the
validation error text as body; when validation succeeds, the SBOM bytes are
written under the fresh "sbom-"-prefixed key and the returned statusCode is
200 (the pristine response object). -/
theorem C10_thm (validateBom : String → Option String) (b bom : String) (s : St) :
    (∀ e, validateBom bom = some e →
      pristine_sbom_ingress_handler validateBom b bom s =
        ({ statusCode := 400, body := RespBody.text e },
         { s with rngUsed := s.rngUsed + 1 })) ∧
    (validateBom bom = none →
      pristine_sbom_ingress_handler validateBom b bom s =
        (create_pristine_response_obj b ("sbom-" ++ s.rng s.rngUsed),
         s3Put b ("sbom-" ++ s.rng s.rngUsed) bom { s with rngUsed := s.rngUsed + 2 })) := by
  constructor
  · intro e he
    simp [pristine_sbom_ingress_handler, freshUuid, he, create_pristine_response_obj]
  · intro hnone
    simp [pristine_sbom_ingress_handler, freshUuid, hnone, s3Put]

/-- C10 witness for the theorem at concrete inputs, exercising both branches:
the toy validator rejects the body "BAD" with the error text "invalid sbom"
and accepts the body "GOOD". -/
theorem C10_wit :
    pristine_sbom_ingress_handler toyValidate "sboms" "BAD" stGood =
      ({ statusCode := 400, body := RespBody.text "invalid sbom" },
       { stGood with rngUsed := stGood.rngUsed + 1 }) ∧
    pristine_sbom_ingress_handler toyValidate "sboms" "GOOD" stGood =
      (create_pristine_response_obj "sboms" ("sbom-" ++ stGood.rng stGood.rngUsed),
       s3Put "sboms" ("sbom-" ++ stGood.rng stGood.rngUsed) "GOOD"
         { stGood with rngUsed := stGood.rngUsed + 2 }) :=
  ⟨(C10_thm toyValidate "sboms" "BAD" stGood).1 "invalid sbom" rfl,
   (C10_thm toyValidate "sboms" "GOOD" stGood).2 rfl⟩

end SbomHarbor
